import Mathlib

/-!
Verification of the MonitorFor4 payment-API monitor against its design
specification.  The JavaScript sources are shallowly embedded as Lean
functions: JS numbers appearing as timestamps and millisecond counts are
modelled as `Int`/`Nat`, `undefined`/`null` fields as `Option`, JS objects
used as string-keyed dictionaries as association lists, and code paths
that raise a `TypeError` as `Except Unit`.  Timestamps are explicit
parameters (`now`), mirroring the calls to `Date.now()` / `moment()`.
-/

namespace MonitorFor4

/-! ### JS-style primitives -/

/-- Truthiness of a possibly-absent JS number (`null`/`undefined`/`0` are falsy).
Used by `isWithinMonitoringHours` (`if (!startHour || !endHour)`). -/
def jsTruthyInt : Option Int → Bool
  | none => false
  | some v => v != 0

/-- Truthiness of a possibly-absent JS string (`null`/`undefined`/`""` are falsy).
Used by `validatePixResponse` (`if (!data[field])`). -/
def jsTruthyStr : Option String → Bool
  | none => false
  | some s => s != ""

/-- Does `l` start with `pre`?  Helper for the substring check. -/
def startsWithList : List Char → List Char → Bool
  | _, [] => true
  | [], _ :: _ => false
  | c :: cs, d :: ds => c == d && startsWithList cs ds

/-- Does the second list contain the first as a contiguous run?  Models
JS `String.prototype.includes` on the underlying character lists. -/
def includesList (sub : List Char) : List Char → Bool
  | [] => startsWithList [] sub
  | c :: cs => startsWithList (c :: cs) sub || includesList sub cs

/-- JS `s.includes(sub)`. -/
def strIncludes (s sub : String) : Bool :=
  includesList sub.toList s.toList

/-! ### Error taxonomy (`src/utils/errorHandler.js`, `ErrorTypes`) -/

inductive ErrorType
  | NETWORK_ERROR
  | TIMEOUT_ERROR
  | AUTH_ERROR
  | API_ERROR
  | INVALID_RESPONSE
  | NO_PIX_CODE
  | UNKNOWN_ERROR
  deriving DecidableEq

/-- The part of an axios `error.response` that `classifyError` reads. -/
structure Resp where
  status : Option Int
  deriving DecidableEq

/-- An error object as consumed by `classifyError`: the `code`, `message`
and `response` fields may each be absent (`undefined`). -/
structure ErrObj where
  code : Option String
  message : Option String
  response : Option Resp
  deriving DecidableEq

/-- `ErrorHandler.classifyError` (errorHandler.js lines 57-83).
`Except.error ()` models the `TypeError` raised by
`error.message.includes('timeout')` when `message` is absent (reached
whenever `code` is not `'ECONNABORTED'`, because `||` short-circuits). -/
def classifyError (error : ErrObj) : Except Unit ErrorType :=
  if error.code == some "ECONNABORTED" then .ok .TIMEOUT_ERROR
  else
    match error.message with
    | none => .error ()
    | some m =>
      if strIncludes m "timeout" then .ok .TIMEOUT_ERROR
      else if error.code == some "ENOTFOUND" || error.code == some "ECONNREFUSED" then
        .ok .NETWORK_ERROR
      else
        match error.response with
        | some r =>
          match r.status with
          | some status =>
            if status == 401 || status == 403 then .ok .AUTH_ERROR
            else if 400 ≤ status && status < 500 then .ok .API_ERROR
            else if 500 ≤ status then .ok .API_ERROR
            else .ok .UNKNOWN_ERROR
          | none => .ok .UNKNOWN_ERROR
        | none => .ok .UNKNOWN_ERROR

/-! ### PIX response validation (`src/services/for4Service.js`) -/

/-- The response fields `validatePixResponse` inspects. -/
structure PixData where
  id : Option String
  status : Option String
  pixCode : Option String
  pixQrCode : Option String
  deriving DecidableEq

/-- The `Error` object thrown by `validatePixResponse`: it carries a `type`
tag, a `message`, and the list of missing fields, but no `code` and no
`response` field. -/
structure ValidationError where
  type : ErrorType
  message : String
  missingFields : List String
  deriving DecidableEq

/-- `For4Service.validatePixResponse` (for4Service.js lines 120-151).
Returns `some err` when the source throws, `none` when it passes.  The
field loop checks each required field for JS falsiness; the `type` is
first set to `INVALID_RESPONSE` and overridden to `NO_PIX_CODE` when
`pixCode` or `pixQrCode` is among the missing fields. -/
def validatePixResponse (data : PixData) : Option ValidationError :=
  let missingFields :=
    (if jsTruthyStr data.id then [] else ["id"]) ++
    (if jsTruthyStr data.status then [] else ["status"]) ++
    (if jsTruthyStr data.pixCode then [] else ["pixCode"]) ++
    (if jsTruthyStr data.pixQrCode then [] else ["pixQrCode"])
  if missingFields.isEmpty then none
  else if !jsTruthyStr data.pixCode || !jsTruthyStr data.pixQrCode then
    some { type := .NO_PIX_CODE,
           message := "Transação criada mas sem código PIX",
           missingFields := missingFields }
  else
    some { type := .INVALID_RESPONSE,
           message := "Campos obrigatórios faltando na resposta",
           missingFields := missingFields }

/-- The error object a validation failure presents to `classifyError`.
The thrown `Error` is rethrown by `createPixTransaction` as
`throw { ...error, trackingId, isFor4Error: true }` (for4Service.js
line 109); object spread copies only own enumerable properties, and an
`Error`'s `message` is non-enumerable (the reassignment on line 138
keeps it so), so the object reaching the error handler retains the
enumerable `type`/`missingFields` but has no `message`, no `code` and
no `response`. -/
def rethrownErrObj (_ : ValidationError) : ErrObj :=
  { code := none, message := none, response := none }

/-! ### Error state tracker (`src/utils/errorHandler.js`) -/

/-- One entry of `this.errorState` (errorHandler.js lines 187-192). -/
structure ErrState where
  count : Nat
  firstOccurrence : Int
  lastOccurrence : Int
  lastNotification : Option Int
  deriving DecidableEq

/-- `this.errorState`: a JS object keyed by error type, modelled as an
association list. -/
abbrev ErrorStateMap := List (ErrorType × ErrState)

/-- Dictionary read `m[k]` (`undefined` as `none`). -/
def lookupState : ErrorStateMap → ErrorType → Option ErrState
  | [], _ => none
  | (k2, v) :: rest, k => if k2 = k then some v else lookupState rest k

/-- Dictionary write `m[k] = v` (updates in place, appends if absent). -/
def setState : ErrorStateMap → ErrorType → ErrState → ErrorStateMap
  | [], k, v => [(k, v)]
  | (k2, v2) :: rest, k, v =>
    if k2 = k then (k2, v) :: rest else (k2, v2) :: setState rest k v

/-- `ErrorHandler.shouldSendNotification` (errorHandler.js lines 221-231):
the guard is `if (!state || !state.lastNotification) return true`, a JS
falsiness test — it fires when no state exists, when no notification was
ever sent (`null`), and also when the stored timestamp is the number `0`
(the epoch), which is falsy; otherwise notify iff the cooldown has
elapsed since the last notification. -/
def shouldSendNotification (m : ErrorStateMap) (errorType : ErrorType)
    (cooldownMs now : Int) : Bool :=
  match lookupState m errorType with
  | none => true
  | some state =>
    match state.lastNotification with
    | none => true
    | some lastNotification =>
      if lastNotification == 0 then true
      else decide (cooldownMs ≤ now - lastNotification)

/-- The value `handleError` returns (errorHandler.js lines 210-215); the
formatted message is presentational and omitted. -/
structure HandleResult where
  type : ErrorType
  shouldNotify : Bool
  errorCount : Nat
  deriving DecidableEq

/-- `ErrorHandler.handleError` (errorHandler.js lines 181-216): classify,
create the per-kind state on first sight, bump `count` and
`lastOccurrence`, decide notification via the cooldown, and stamp
`lastNotification := now` when notifying.  A `classifyError` raise
propagates (the mutable-state updates lost with it are unobserved
by any caller). -/
def handleError (m : ErrorStateMap) (error : ErrObj) (cooldownMs now : Int) :
    Except Unit (ErrorStateMap × HandleResult) :=
  match classifyError error with
  | .error e => .error e
  | .ok errorType =>
    let st0 : ErrState :=
      match lookupState m errorType with
      | none =>
        { count := 0, firstOccurrence := now, lastOccurrence := now,
          lastNotification := none }
      | some s => s
    let st1 := { st0 with count := st0.count + 1, lastOccurrence := now }
    let m1 := setState m errorType st1
    let shouldNotify := shouldSendNotification m1 errorType cooldownMs now
    let m2 :=
      if shouldNotify then setState m1 errorType { st1 with lastNotification := some now }
      else m1
    .ok (m2, ({ type := errorType, shouldNotify := shouldNotify,
                errorCount := st1.count } : HandleResult))

/-- Dictionary delete `delete m[k]`. -/
def removeState (m : ErrorStateMap) (k : ErrorType) : ErrorStateMap :=
  m.filter (fun p => p.1 != k)

/-- `ErrorHandler.clearErrorState` (errorHandler.js lines 236-244):
`none` (the default argument) clears every kind. -/
def clearErrorState (m : ErrorStateMap) (errorType : Option ErrorType) : ErrorStateMap :=
  match errorType with
  | some k => removeState m k
  | none => []

/-- Run `handleError` for one error object at each of the given times,
threading the state, and record `(shouldNotify, errorCount)` per call. -/
def handleTimes (cooldownMs : Int) (times : List Int) (e : ErrObj) :
    List (Bool × Nat) :=
  (times.foldl
    (fun (acc : ErrorStateMap × List (Bool × Nat)) t =>
      match handleError acc.1 e cooldownMs t with
      | .ok (m2, r) => (m2, acc.2 ++ [(r.shouldNotify, r.errorCount)])
      | .error _ => acc)
    ([], [])).2

/-- A timeout failure (axios sets `code = 'ECONNABORTED'`). -/
def econnAborted : ErrObj :=
  { code := some "ECONNABORTED", message := some "timeout of 30000ms exceeded",
    response := none }

/-! ### Monitoring-hours window (`src/utils/dataGenerator.js`) -/

/-- `isWithinMonitoringHours(startHour, endHour)` (dataGenerator.js lines
165-177).  The guard `if (!startHour || !endHour) return true` tests the
configured hours for JS truthiness, so an absent (`null`) hour and the
hour `0` both disable the window.  When the end hour is smaller than the
start hour, the window wraps across midnight.  The current hour
(`moment().hour()`) is an explicit parameter. -/
def isWithinMonitoringHours (startHour endHour : Option Int)
    (currentHour : Int) : Bool :=
  if !jsTruthyInt startHour || !jsTruthyInt endHour then true
  else
    let s := startHour.getD 0
    let e := endHour.getD 0
    if e < s then decide (s ≤ currentHour) || decide (currentHour < e)
    else decide (s ≤ currentHour) && decide (currentHour < e)

/-! ### Check orchestrator (`src/monitor.js`, class `PixMonitor`) -/

/-- One entry of `this.stats.errors` (monitor.js lines 177-182); the
formatted time string, message and tracking id are presentational and
only the classified type is kept. -/
structure ErrorEntry where
  type : ErrorType
  deriving DecidableEq

/-- `this.stats` of `PixMonitor` (monitor.js lines 16-26).  `lastCheck`
and `lastError` are formatted display strings in the source and are
omitted; `startTime` is unused by the checks. -/
structure MonitorStats where
  totalChecks : Nat
  successfulChecks : Nat
  failedChecks : Nat
  totalResponseTime : Nat
  errors : List ErrorEntry
  isHealthy : Bool
  deriving DecidableEq

/-- The orchestrator state: the monitor's stats plus the error handler's
state map (a separate singleton in the source). -/
structure MonState where
  stats : MonitorStats
  errorState : ErrorStateMap
  deriving DecidableEq

/-- An outbound Telegram notification produced by a check cycle. -/
inductive Notification
  | recovery
  | errorAlert (t : ErrorType)
  deriving DecidableEq

/-- Generic JS `slice(-n)`: the last `n` elements (all of them when the
list is shorter). -/
def sliceLast {α : Type} (n : Nat) (l : List α) : List α :=
  l.drop (l.length - n)

/-- The success branch of `PixMonitor.runHealthCheck` (monitor.js lines
136-164): bump counters, notify recovery iff the previous state was
unhealthy, set `isHealthy := true`, and clear the whole error state.
Returns the new state and the notifications sent. -/
def runHealthCheckSuccess (st : MonState) (responseTime : Nat) :
    MonState × List Notification :=
  let stats1 :=
    { st.stats with
      totalChecks := st.stats.totalChecks + 1,
      successfulChecks := st.stats.successfulChecks + 1,
      totalResponseTime := st.stats.totalResponseTime + responseTime }
  let recovered := !st.stats.isHealthy
  let stats2 := if recovered then { stats1 with isHealthy := true } else stats1
  (( { stats := stats2, errorState := clearErrorState st.errorState none } : MonState),
   if recovered then [Notification.recovery] else [])

/-- The catch branch of `PixMonitor.runHealthCheck` (monitor.js lines
166-205): bump failure counters, mark unhealthy, delegate to
`handleError`, append to the capped (100) error list, and send an alert
iff `handleError` said to notify. -/
def runHealthCheckFailure (st : MonState) (error : ErrObj)
    (cooldownMs now : Int) : Except Unit (MonState × List Notification) :=
  let stats1 :=
    { st.stats with
      totalChecks := st.stats.totalChecks + 1,
      failedChecks := st.stats.failedChecks + 1,
      isHealthy := false }
  match handleError st.errorState error cooldownMs now with
  | .error e => .error e
  | .ok (es2, info) =>
    let errors1 := stats1.errors ++ [({ type := info.type } : ErrorEntry)]
    let errors2 := if errors1.length > 100 then sliceLast 100 errors1 else errors1
    let stats2 := { stats1 with errors := errors2 }
    .ok (({ stats := stats2, errorState := es2 } : MonState),
         if info.shouldNotify then [Notification.errorAlert info.type] else [])

/-- Outcome of the probe call `for4Service.createPixTransaction`. -/
inductive ProbeOutcome
  | success (responseTime : Nat)
  | failure (error : ErrObj)

/-- Orchestrator state plus the pause flag read at the top of a cycle. -/
structure MonFullState where
  mon : MonState
  isPaused : Bool

/-- `PixMonitor.runHealthCheck` (monitor.js lines 118-210): a cycle is
skipped (no state change, nothing sent) outside the monitoring-hours
window or while paused; otherwise the probe outcome selects the success
or failure branch. -/
def runHealthCheck (startHour endHour : Option Int) (currentHour : Int)
    (st : MonFullState) (outcome : ProbeOutcome) (cooldownMs now : Int) :
    Except Unit (MonFullState × List Notification) :=
  if !isWithinMonitoringHours startHour endHour currentHour then .ok (st, [])
  else if st.isPaused then .ok (st, [])
  else
    match outcome with
    | .success rt =>
      let (m2, ns) := runHealthCheckSuccess st.mon rt
      .ok ({ st with mon := m2 }, ns)
    | .failure e =>
      match runHealthCheckFailure st.mon e cooldownMs now with
      | .error err => .error err
      | .ok (m2, ns) => .ok ({ st with mon := m2 }, ns)

/-! ### Performance tracker (`src/utils/logger.js`, class `PerformanceTracker`)

Timestamps are epoch milliseconds.  The string bucket keys
`'YYYY-MM-DD-HH'` / `'YYYY-MM-DD'` are modelled by the absolute hour
index `now / msPerHour` and day index `now / msPerDay` (the formatted key
determines, and is determined by, the start of the hour/day). -/

def maxSamples : Nat := 1000

def msPerHour : Nat := 3600000

def msPerDay : Nat := 86400000

/-- One ring-buffer sample (logger.js lines 262-267); `time` is the ISO
string of `now` in the source. -/
structure Sample where
  time : Nat
  responseTime : Nat
  success : Bool
  hasPixCode : Bool
  deriving DecidableEq

/-- `this.metrics.current` (logger.js lines 207-213).  `minTime` starts
as `Infinity`, modelled by `none`. -/
structure CurrentMetrics where
  count : Nat
  totalTime : Nat
  minTime : Option Nat
  maxTime : Nat
  samples : List Sample
  deriving DecidableEq

/-- An hourly bucket (logger.js lines 278-284). -/
structure HourBucket where
  count : Nat
  totalTime : Nat
  minTime : Option Nat
  maxTime : Nat
  failures : Nat
  deriving DecidableEq

/-- One entry of a daily bucket's `hourlyBreakdown` (logger.js lines 314-318). -/
structure HourBreakdown where
  count : Nat
  totalTime : Nat
  avgTime : Nat
  deriving DecidableEq

/-- A daily bucket (logger.js lines 295-302); `hourlyBreakdown` is keyed
by the hour of day (0-23). -/
structure DayBucket where
  count : Nat
  totalTime : Nat
  minTime : Option Nat
  maxTime : Nat
  failures : Nat
  hourlyBreakdown : List (Nat × HourBreakdown)
  deriving DecidableEq

/-- `this.metrics` (logger.js lines 206-217). -/
structure Metrics where
  current : CurrentMetrics
  hourly : List (Nat × HourBucket)
  daily : List (Nat × DayBucket)
  lastUpdate : Option Nat
  deriving DecidableEq

def emptyMetrics : Metrics :=
  { current := { count := 0, totalTime := 0, minTime := none, maxTime := 0, samples := [] },
    hourly := [], daily := [], lastUpdate := none }

/-- Dictionary read for the bucket maps. -/
def alookup {β : Type} : List (Nat × β) → Nat → Option β
  | [], _ => none
  | (k2, v) :: rest, k => if k2 = k then some v else alookup rest k

/-- Dictionary write for the bucket maps. -/
def aset {β : Type} : List (Nat × β) → Nat → β → List (Nat × β)
  | [], k, v => [(k, v)]
  | (k2, v2) :: rest, k, v =>
    if k2 = k then (k2, v) :: rest else (k2, v2) :: aset rest k v

/-- JS `Math.min` against a possibly-`Infinity` accumulator. -/
def jsMinInf : Option Nat → Nat → Option Nat
  | none, rt => some rt
  | some m, rt => some (Nat.min m rt)

/-- JS `Math.round(t / c)` for naturals with `c > 0`:
`⌊t/c + 1/2⌋ = (2t + c) / (2c)` (half-values round up, as in JS). -/
def jsRoundDiv (t c : Nat) : Nat := (2 * t + c) / (2 * c)

/-- `PerformanceTracker.cleanOldData` (logger.js lines 339-355): drop
hourly/daily buckets whose start lies more than 7 days before `now`. -/
def cleanOldData (m : Metrics) (now : Nat) : Metrics :=
  { m with
    hourly := m.hourly.filter (fun p => !(p.1 * msPerHour + 7 * msPerDay < now)),
    daily := m.daily.filter (fun p => !(p.1 * msPerDay + 7 * msPerDay < now)) }

/-- `PerformanceTracker.recordResponseTime` (logger.js lines 250-334):
update the current aggregates, append the sample to the ring buffer
(capping at `maxSamples` by keeping the last `maxSamples`), update or
create the hourly bucket, the daily bucket and its hour-of-day
breakdown, and purge buckets older than 7 days.  Persistence is a no-op
here. -/
def recordResponseTime (m : Metrics) (responseTime : Nat)
    (success hasPixCode : Bool) (now : Nat) : Metrics :=
  let hour := now / msPerHour
  let day := now / msPerDay
  let cur0 := m.current
  let cur1 :=
    { cur0 with
      count := cur0.count + 1,
      totalTime := cur0.totalTime + responseTime,
      minTime := jsMinInf cur0.minTime responseTime,
      maxTime := Nat.max cur0.maxTime responseTime }
  let sample : Sample :=
    { time := now, responseTime := responseTime, success := success,
      hasPixCode := hasPixCode }
  let samples1 := cur1.samples ++ [sample]
  let samples2 :=
    if samples1.length > maxSamples then sliceLast maxSamples samples1 else samples1
  let cur2 := { cur1 with samples := samples2 }
  let hb0 : HourBucket :=
    match alookup m.hourly hour with
    | none => { count := 0, totalTime := 0, minTime := none, maxTime := 0, failures := 0 }
    | some b => b
  let hb1 :=
    { hb0 with
      count := hb0.count + 1,
      totalTime := hb0.totalTime + responseTime,
      minTime := jsMinInf hb0.minTime responseTime,
      maxTime := Nat.max hb0.maxTime responseTime,
      failures := hb0.failures + (if success then 0 else 1) }
  let hourly1 := aset m.hourly hour hb1
  let db0 : DayBucket :=
    match alookup m.daily day with
    | none =>
      { count := 0, totalTime := 0, minTime := none, maxTime := 0, failures := 0,
        hourlyBreakdown := [] }
    | some b => b
  let db1 :=
    { db0 with
      count := db0.count + 1,
      totalTime := db0.totalTime + responseTime,
      minTime := jsMinInf db0.minTime responseTime,
      maxTime := Nat.max db0.maxTime responseTime,
      failures := db0.failures + (if success then 0 else 1) }
  let hourOfDay := hour % 24
  let bd0 : HourBreakdown :=
    match alookup db1.hourlyBreakdown hourOfDay with
    | none => { count := 0, totalTime := 0, avgTime := 0 }
    | some b => b
  let bd1count := bd0.count + 1
  let bd1total := bd0.totalTime + responseTime
  let bd1 : HourBreakdown :=
    { count := bd1count, totalTime := bd1total,
      avgTime := jsRoundDiv bd1total bd1count }
  let db2 := { db1 with hourlyBreakdown := aset db1.hourlyBreakdown hourOfDay bd1 }
  let daily1 := aset m.daily day db2
  cleanOldData
    { current := cur2, hourly := hourly1, daily := daily1, lastUpdate := some now }
    now

/-- One input to `recordResponseTime`. -/
structure RecordInput where
  responseTime : Nat
  success : Bool
  hasPixCode : Bool
  now : Nat

/-- A sequence of `recordResponseTime` calls. -/
def recordAll (m : Metrics) (inputs : List RecordInput) : Metrics :=
  inputs.foldl
    (fun acc i => recordResponseTime acc i.responseTime i.success i.hasPixCode i.now) m

/-- The sample `recordResponseTime` appends for a given input. -/
def mkSample (i : RecordInput) : Sample :=
  { time := i.now, responseTime := i.responseTime, success := i.success,
    hasPixCode := i.hasPixCode }

/-- One entry of `getCurrentStats().last10` (logger.js lines 378-382);
`time` is reformatted for display in the source. -/
structure Last10Entry where
  time : Nat
  responseTime : Nat
  success : Bool
  deriving DecidableEq

/-- The value of `PerformanceTracker.getCurrentStats` (logger.js lines 360-384). -/
structure CurrentStats where
  count : Nat
  average : Nat
  min : Nat
  max : Nat
  last10 : List Last10Entry
  deriving DecidableEq

/-- `PerformanceTracker.getCurrentStats` (logger.js lines 360-384):
zeros when no sample was recorded; otherwise the rounded mean, the
tracked min (0 if still `Infinity`) and max, and the last 10 samples of
the ring buffer in order. -/
def getCurrentStats (m : Metrics) : CurrentStats :=
  let current := m.current
  if current.count == 0 then
    { count := 0, average := 0, min := 0, max := 0, last10 := [] }
  else
    { count := current.count,
      average := jsRoundDiv current.totalTime current.count,
      min := current.minTime.getD 0,
      max := current.maxTime,
      last10 :=
        (sliceLast 10 current.samples).map
          (fun s => { time := s.time, responseTime := s.responseTime,
                      success := s.success }) }

/-- One entry of `getHourlyStats` (logger.js lines 398-418); the display
strings `hour`/`date` are represented by the absolute hour key. -/
structure HourStat where
  hourKey : Nat
  count : Nat
  average : Nat
  min : Nat
  max : Nat
  failures : Nat
  deriving DecidableEq

/-- The per-hour entry: from the bucket when present, zero-filled otherwise. -/
def hourStatAt (hourly : List (Nat × HourBucket)) (key : Nat) : HourStat :=
  match alookup hourly key with
  | some hd =>
    { hourKey := key, count := hd.count,
      average := jsRoundDiv hd.totalTime hd.count,
      min := hd.minTime.getD 0, max := hd.maxTime, failures := hd.failures }
  | none =>
    { hourKey := key, count := 0, average := 0, min := 0, max := 0, failures := 0 }

/-- `PerformanceTracker.getHourlyStats` (logger.js lines 389-422): one
entry per hour from `hours - 1` hours ago up to the current hour.
`nowHour` is the current absolute hour index. -/
def getHourlyStats (m : Metrics) (hours : Nat) (nowHour : Nat) : List HourStat :=
  ((List.range hours).reverse).map (fun i => hourStatAt m.hourly (nowHour - i))

/-- `PerformanceTracker.calculateRecentAverage(hours, offset)` (logger.js
lines 482-499): fold over the buckets `offset`-to-`offset+hours-1` hours
ago, accumulating total time and count of non-empty buckets; the average
is their quotient, or 0 when no bucket had samples. -/
def calculateRecentAverage (m : Metrics) (hours offset nowHour : Nat) : ℚ :=
  let acc :=
    ((List.range hours).map (· + offset)).foldl
      (fun (acc : Nat × Nat) i =>
        match alookup m.hourly (nowHour - i) with
        | some hd =>
          if hd.count > 0 then (acc.1 + hd.totalTime, acc.2 + hd.count) else acc
        | none => acc)
      (0, 0)
  if acc.2 > 0 then (acc.1 : ℚ) / (acc.2 : ℚ) else 0

/-- `PerformanceTracker.calculatePercentile` (logger.js lines 504-509):
nearest-rank on an ascending-sorted array.  The index
`Math.max(0, Math.ceil(p/100 * n) - 1)` is `(p * n + 99) / 100 - 1` in
truncated natural arithmetic; for `p ≤ 100` it is within bounds (the
source has no upper clamp and would read `undefined` past the end). -/
def calculatePercentile (sortedArray : List Nat) (percentile : Nat) : Nat :=
  if sortedArray.isEmpty then 0
  else sortedArray.getD ((percentile * sortedArray.length + 99) / 100 - 1) 0

/-- The response times of the full current ring buffer, sorted ascending
(logger.js lines 458-460, `.sort((a, b) => a - b)`). -/
def sortedRTs (m : Metrics) : List Nat :=
  (m.current.samples.map (fun s => s.responseTime)).mergeSort

/-- The trend label: `estável` / `piorando` / `melhorando`. -/
inductive Trend
  | stable
  | degrading
  | improving
  deriving DecidableEq

/-- The value of `getPerformanceAnalysis` (logger.js lines 466-476).
`trendPercent` is the reported `Math.abs(trendPercent)` (its `toFixed(1)`
string formatting is not modelled). -/
structure PerformanceAnalysis where
  trend : Trend
  trendPercent : ℚ
  criticalHours : List Nat
  p50 : Nat
  p95 : Nat
  p99 : Nat
  totalRequests : Nat
  avgResponseTime : Nat
  bestTime : Nat
  worstTime : Nat
  deriving DecidableEq

/-- `PerformanceTracker.getPerformanceAnalysis` (logger.js lines 427-477).
The float comparison `h.average > currentStats.average * 1.5` is the
exact integer comparison `2 * h.average > 3 * currentStats.average`;
percentage arithmetic is exact rational arithmetic. -/
def getPerformanceAnalysis (m : Metrics) (nowHour : Nat) : PerformanceAnalysis :=
  let last24h := getHourlyStats m 24 nowHour
  let currentStats := getCurrentStats m
  let recentAvg := calculateRecentAverage m 6 0 nowHour
  let olderAvg := calculateRecentAverage m 24 6 nowHour
  let trendPercentRaw : ℚ :=
    if recentAvg > 0 ∧ olderAvg > 0 then (recentAvg - olderAvg) / olderAvg * 100 else 0
  let trend : Trend :=
    if recentAvg > 0 ∧ olderAvg > 0 then
      if trendPercentRaw > 10 then .degrading
      else if trendPercentRaw < -10 then .improving
      else .stable
    else .stable
  let criticalHours :=
    ((last24h.filter
        (fun h => 2 * h.average > 3 * currentStats.average && h.count > 0)).map
      (fun h => h.hourKey)).take 3
  let sortedSamples := sortedRTs m
  { trend := trend,
    trendPercent := |trendPercentRaw|,
    criticalHours := criticalHours,
    p50 := calculatePercentile sortedSamples 50,
    p95 := calculatePercentile sortedSamples 95,
    p99 := calculatePercentile sortedSamples 99,
    totalRequests := currentStats.count,
    avgResponseTime := currentStats.average,
    bestTime := currentStats.min,
    worstTime := currentStats.max }

/-! ## Theorems -/

/-- C10: if either configured boundary of the monitoring-hours window
equals 0 or is unset, `isWithinMonitoringHours` returns true for every
current hour — the window is treated as absent — because the guard tests
the hours for truthiness rather than for null. -/
theorem monitoringHours_zero_or_unset_always_active
    (startHour endHour : Option Int) (h : Int)
    (hz : startHour = some 0 ∨ startHour = none ∨ endHour = some 0 ∨ endHour = none) :
    isWithinMonitoringHours startHour endHour h = true := by
  rcases hz with h1 | h1 | h1 | h1 <;> subst h1 <;>
    simp [isWithinMonitoringHours, jsTruthyInt]

/-- Witness for C10 at hour 0 boundaries and at an unset boundary. -/
theorem monitoringHours_zero_or_unset_always_active_witness :
    isWithinMonitoringHours (some 0) (some 6) 10 = true
    ∧ isWithinMonitoringHours (some 22) (some 0) 10 = true
    ∧ isWithinMonitoringHours none (some 6) 10 = true :=
  ⟨monitoringHours_zero_or_unset_always_active (some 0) (some 6) 10 (Or.inl rfl),
   monitoringHours_zero_or_unset_always_active (some 22) (some 0) 10
     (Or.inr (Or.inr (Or.inl rfl))),
   monitoringHours_zero_or_unset_always_active none (some 6) 10
     (Or.inr (Or.inl rfl))⟩

/-- C9 counterexample: with start = 22 and end = 0 the configured end-hour
is less than the start-hour, the claimed active set `[22,24) ∪ [0,0)`
excludes hour 10, yet the code reports the window active at hour 10
(the truthiness guard sees the 0 and disables the window). -/
theorem monitoringHours_wraparound_claim_false :
    (0 : Int) < 22
    ∧ isWithinMonitoringHours (some 22) (some 0) 10 = true
    ∧ ¬((22 : Int) ≤ 10 ∨ (10 : Int) < 0) := by
  decide

/-- C9 (amended): provided both configured hours are nonzero, the
wraparound and plain windows behave as claimed: for end < start the check
is active exactly on `[start,24) ∪ [0,end)`, otherwise exactly on
`[start,end)`; in particular start=22, end=6 is active at hours 23 and 2
and inactive at hour 10. -/
theorem monitoringHours_window_spec (s e h : Int) (hs : s ≠ 0) (he : e ≠ 0) :
    ((e < s →
        (isWithinMonitoringHours (some s) (some e) h = true ↔ (s ≤ h ∨ h < e)))
      ∧ (s ≤ e →
        (isWithinMonitoringHours (some s) (some e) h = true ↔ (s ≤ h ∧ h < e))))
    ∧ isWithinMonitoringHours (some 22) (some 6) 23 = true
    ∧ isWithinMonitoringHours (some 22) (some 6) 2 = true
    ∧ isWithinMonitoringHours (some 22) (some 6) 10 = false := by
  refine ⟨⟨?_, ?_⟩, by decide, by decide, by decide⟩
  · intro hlt
    simp [isWithinMonitoringHours, jsTruthyInt, hs, he, hlt]
  · intro hle
    simp [isWithinMonitoringHours, jsTruthyInt, hs, he, not_lt.2 hle]

/-- Witness for C9's amended theorem at start=22, end=6, hour=23. -/
theorem monitoringHours_window_spec_witness :
    isWithinMonitoringHours (some 22) (some 6) 23 = true ↔ ((22:Int) ≤ 23 ∨ (23:Int) < 6) :=
  ((monitoringHours_window_spec 22 6 23 (by decide) (by decide)).1.1 (by decide))

/-- C2 (code bug): `validatePixResponse` tags a missing-field failure
`NO_PIX_CODE` (when the payment-code fields are missing) or
`INVALID_RESPONSE`, but no path classifies it so: `handleError` derives
the kind from `classifyError` alone, which never inspects `error.type`
and — because the `{...error}` rethrow strips the non-enumerable
`message` — dereferences `error.message` on `undefined` and raises a
TypeError instead of returning any kind, leaving the `NO_PIX_CODE`
branch of `formatErrorMessage` unreachable. -/
theorem missingFields_classified_unknown :
    ((validatePixResponse
        { id := some "abc", status := some "PENDING",
          pixCode := none, pixQrCode := none }).map ValidationError.type
      = some ErrorType.NO_PIX_CODE)
    ∧ ((validatePixResponse
        { id := none, status := some "PENDING",
          pixCode := some "x", pixQrCode := some "y" }).map ValidationError.type
      = some ErrorType.INVALID_RESPONSE)
    ∧ classifyError (rethrownErrObj
        { type := ErrorType.NO_PIX_CODE,
          message := "Transação criada mas sem código PIX",
          missingFields := ["pixCode", "pixQrCode"] })
      = Except.error ()
    ∧ classifyError (rethrownErrObj
        { type := ErrorType.INVALID_RESPONSE,
          message := "Campos obrigatórios faltando na resposta: id",
          missingFields := ["id"] })
      = Except.error () :=
  ⟨rfl, rfl, rfl, rfl⟩

/-- C4 counterexample: an error object with no `message` (and a `code`
other than `'ECONNABORTED'`) makes `classifyError` raise a `TypeError`
(`error.message.includes` on `undefined`) instead of returning a kind. -/
theorem classify_missing_message_raises :
    classifyError { code := none, message := none, response := none }
      = Except.error () := rfl

/-- C4 (amended): classification is total on every input that carries a
message (or whose `code` is `'ECONNABORTED'`, short-circuiting the
message read): it returns exactly one member of the closed seven-kind
set, with `UNKNOWN_ERROR` as the catch-all when no listed rule matches;
an input with no message and another code raises instead. -/
theorem classify_total_on_message (e : ErrObj)
    (h : e.code = some "ECONNABORTED" ∨ e.message ≠ none) :
    (∃ k : ErrorType, classifyError e = Except.ok k)
    ∧ (∀ m : String, e.message = some m →
        e.code ≠ some "ECONNABORTED" → strIncludes m "timeout" = false →
        e.code ≠ some "ENOTFOUND" → e.code ≠ some "ECONNREFUSED" →
        (∀ (r : Resp) (s : Int), e.response = some r → r.status = some s →
          s ≠ 401 ∧ s ≠ 403 ∧ s < 400) →
        classifyError e = Except.ok ErrorType.UNKNOWN_ERROR) := by
  constructor
  · rcases h with h | h
    · exact ⟨ErrorType.TIMEOUT_ERROR, by simp [classifyError, h]⟩
    · cases hm : e.message with
      | none => exact absurd hm h
      | some m =>
        unfold classifyError
        rw [hm]
        repeat' first
          | exact ⟨_, rfl⟩
          | split
          | simp_all
  · intro m hm h1 h2 h3 h4 h5
    have c1 : (e.code == some "ECONNABORTED") = false := by
      simp [beq_eq_false_iff_ne, h1]
    have c2 : (e.code == some "ENOTFOUND") = false := by
      simp [beq_eq_false_iff_ne, h3]
    have c3 : (e.code == some "ECONNREFUSED") = false := by
      simp [beq_eq_false_iff_ne, h4]
    unfold classifyError
    rw [hm]
    simp only [c1, c2, c3, h2, Bool.false_or, Bool.or_self, if_false, Bool.false_eq_true]
    rcases hre : e.response with _ | r
    · simp only [hre]
    · simp only [hre]
      rcases hrs : r.status with _ | s
      · simp only [hrs]
      · obtain ⟨n1, n2, n3⟩ := h5 r s hre hrs
        have d1 : (s == 401) = false := by simp [beq_eq_false_iff_ne, n1]
        have d2 : (s == 403) = false := by simp [beq_eq_false_iff_ne, n2]
        have d3 : (decide ((400:Int) ≤ s) && decide (s < 500)) = false := by
          have : ¬((400:Int) ≤ s) := by omega
          simp [this]
        have d4 : ¬((500:Int) ≤ s) := by omega
        simp [hrs, d1, d2, d3, d4]

/-- Witness for C4's amended theorem on a message-bearing input that
matches no rule. -/
theorem classify_total_on_message_witness :
    (∃ k : ErrorType,
      classifyError { code := none, message := some "boom", response := none }
        = Except.ok k)
    ∧ classifyError { code := none, message := some "boom", response := none }
        = Except.ok ErrorType.UNKNOWN_ERROR :=
  ⟨(classify_total_on_message
      { code := none, message := some "boom", response := none }
      (Or.inr (by simp))).1,
   (classify_total_on_message
      { code := none, message := some "boom", response := none }
      (Or.inr (by simp))).2 "boom" rfl (by simp) (by decide) (by simp) (by simp)
      (fun r s hr _ => nomatch hr)⟩

/-- Reading back a key just written into the error-state dictionary. -/
theorem lookupState_setState_self (m : ErrorStateMap) (k : ErrorType) (v : ErrState) :
    lookupState (setState m k v) k = some v := by
  induction m with
  | nil => simp [setState, lookupState]
  | cons p rest ih =>
    obtain ⟨k2, v2⟩ := p
    by_cases hk : k2 = k
    · simp [setState, lookupState, hk]
    · simp [setState, lookupState, hk, ih]

/-- C1 counterexample: three failures at times 0, 60000, 120000 ms with
the default 30-minute cooldown notify on the first AND the second — the
first notification is stamped at the epoch (`lastNotification = 0`),
which the JS falsiness guard `!state.lastNotification` treats as
never-notified — refuting "only the first returns shouldNotify=true"
and the unconditional cooldown iff. -/
theorem cooldown_epoch_renotifies :
    handleTimes 1800000 [0, 60000, 120000] econnAborted
      = [(true, 1), (true, 2), (false, 3)] := by decide

/-- C1 (amended): `handleError` notifies when the kind's state has no
notification timestamp or a stamped timestamp of 0 (the epoch, falsy in
JS); on a later failure with a nonzero stamped timestamp `t` it notifies
iff `now - t ≥ cooldown`; whenever it notifies it stamps the timestamp
with `now`.  Three consecutive failures 1 minute apart under the default
30-minute cooldown, the first at a nonzero time, notify only on the
first and reach consecutive count 3. -/
theorem handleError_cooldown_spec :
    (∀ (m : ErrorStateMap) (e : ErrObj) (cd now : Int) (m2 : ErrorStateMap)
        (r : HandleResult),
      handleError m e cd now = Except.ok (m2, r) →
      ((((lookupState m r.type).bind ErrState.lastNotification = none
          ∨ (lookupState m r.type).bind ErrState.lastNotification = some 0) →
          r.shouldNotify = true)
       ∧ (∀ s t, lookupState m r.type = some s → s.lastNotification = some t →
            t ≠ 0 → (r.shouldNotify = true ↔ cd ≤ now - t))
       ∧ (r.shouldNotify = true →
            (lookupState m2 r.type).bind ErrState.lastNotification = some now)))
    ∧ handleTimes 1800000 [1000000, 1060000, 1120000] econnAborted
        = [(true, 1), (false, 2), (false, 3)] := by
  constructor
  · intro m e cd now m2 r h
    unfold handleError at h
    cases hc : classifyError e with
    | error u => rw [hc] at h; exact absurd h (by simp)
    | ok k =>
      rw [hc] at h
      cases hl : lookupState m k with
      | none =>
        simp only [hl, shouldSendNotification, lookupState_setState_self,
          Except.ok.injEq, Prod.mk.injEq] at h
        obtain ⟨hm2, hr⟩ := h
        subst hr
        refine ⟨fun _ => rfl, ?_, ?_⟩
        · intro s t hs ht hne
          rw [hl] at hs; exact absurd hs (by simp)
        · intro _
          subst hm2
          simp [lookupState_setState_self]
      | some s0 =>
        cases hn : s0.lastNotification with
        | none =>
          simp only [hl, hn, shouldSendNotification, lookupState_setState_self,
            Except.ok.injEq, Prod.mk.injEq] at h
          obtain ⟨hm2, hr⟩ := h
          subst hr
          refine ⟨fun _ => rfl, ?_, ?_⟩
          · intro s t hs ht hne
            rw [hl] at hs
            injection hs with hs0
            subst hs0
            exact absurd ht (by simp [hn])
          · intro _
            subst hm2
            simp [lookupState_setState_self]
        | some t0 =>
          by_cases ht0 : t0 = 0
          · subst ht0
            simp only [hl, hn, shouldSendNotification, lookupState_setState_self,
              beq_self_eq_true, if_true, Except.ok.injEq, Prod.mk.injEq] at h
            obtain ⟨hm2, hr⟩ := h
            subst hr
            refine ⟨fun _ => rfl, ?_, ?_⟩
            · intro s t hs ht hne
              rw [hl] at hs
              injection hs with hs0
              subst hs0
              rw [hn] at ht
              injection ht with ht0
              exact absurd ht0.symm hne
            · intro _
              subst hm2
              simp [lookupState_setState_self]
          · have hbeq : (t0 == 0) = false := by simp [ht0]
            simp only [hl, hn, shouldSendNotification, lookupState_setState_self,
              hbeq, Bool.false_eq_true, if_false, Except.ok.injEq,
              Prod.mk.injEq] at h
            obtain ⟨hm2, hr⟩ := h
            subst hr
            refine ⟨?_, ?_, ?_⟩
            · intro hd
              rcases hd with hd | hd
              · rw [hl] at hd
                simp [hn] at hd
              · rw [hl] at hd
                simp [hn] at hd
                exact absurd hd ht0
            · intro s t hs ht hne
              rw [hl] at hs
              injection hs with hs0
              subst hs0
              rw [hn] at ht
              injection ht with ht1
              subst ht1
              simp
            · intro htrue
              simp only at htrue
              rw [htrue] at hm2
              simp only [if_true] at hm2
              subst hm2
              simp [lookupState_setState_self]
  · decide

/-- Witness for C1's amended theorem: a first failure at time 1000000 ms
notifies and stamps the timestamp; a second failure 1 minute later faces
the cooldown test. -/
theorem handleError_cooldown_spec_witness :
    (({ type := ErrorType.TIMEOUT_ERROR, shouldNotify := true,
        errorCount := 1 } : HandleResult).shouldNotify = true)
    ∧ ((lookupState
          [(ErrorType.TIMEOUT_ERROR,
            { count := 1, firstOccurrence := 1000000, lastOccurrence := 1000000,
              lastNotification := some 1000000 })]
          ErrorType.TIMEOUT_ERROR).bind ErrState.lastNotification = some 1000000)
    ∧ (({ type := ErrorType.TIMEOUT_ERROR, shouldNotify := false,
          errorCount := 2 } : HandleResult).shouldNotify = true
        ↔ (1800000 : Int) ≤ 1060000 - 1000000) := by
  have h1 := (handleError_cooldown_spec.1 [] econnAborted 1800000 1000000
    [(ErrorType.TIMEOUT_ERROR,
      { count := 1, firstOccurrence := 1000000, lastOccurrence := 1000000,
        lastNotification := some 1000000 })]
    { type := ErrorType.TIMEOUT_ERROR, shouldNotify := true, errorCount := 1 } rfl)
  have h2 := (handleError_cooldown_spec.1
    [(ErrorType.TIMEOUT_ERROR,
      { count := 1, firstOccurrence := 1000000, lastOccurrence := 1000000,
        lastNotification := some 1000000 })]
    econnAborted 1800000 1060000
    [(ErrorType.TIMEOUT_ERROR,
      { count := 2, firstOccurrence := 1000000, lastOccurrence := 1060000,
        lastNotification := some 1000000 })]
    { type := ErrorType.TIMEOUT_ERROR, shouldNotify := false, errorCount := 2 } rfl)
  exact ⟨h1.1 (Or.inl rfl), h1.2.2 rfl,
    h2.2.1 { count := 1, firstOccurrence := 1000000, lastOccurrence := 1000000,
             lastNotification := some 1000000 } 1000000 rfl rfl (by norm_num)⟩


/-- C3: on a succeeded check while unhealthy (inside the monitoring
window, not paused), the orchestrator sets `isHealthy := true`, sends the
recovery notification unconditionally (no cooldown is consulted on this
path), and clears every error kind's entry, so every consecutive count
resets. -/
theorem recovery_clears_and_notifies (startHour endHour : Option Int) (hCur : Int)
    (st : MonFullState) (rt : Nat) (cd now : Int)
    (hwin : isWithinMonitoringHours startHour endHour hCur = true)
    (hpause : st.isPaused = false)
    (hunhealthy : st.mon.stats.isHealthy = false) :
    ∃ st2 : MonFullState,
      runHealthCheck startHour endHour hCur st (.success rt) cd now
        = Except.ok (st2, [Notification.recovery])
      ∧ st2.mon.stats.isHealthy = true
      ∧ st2.mon.errorState = []
      ∧ (∀ k, lookupState st2.mon.errorState k = none) := by
  refine ⟨{ st with mon := (runHealthCheckSuccess st.mon rt).1 }, ?_, ?_, ?_, ?_⟩
  · simp [runHealthCheck, hwin, hpause, runHealthCheckSuccess, hunhealthy]
  · simp [runHealthCheckSuccess, hunhealthy]
  · simp [runHealthCheckSuccess, clearErrorState]
  · intro k
    simp [runHealthCheckSuccess, clearErrorState, lookupState]

/-- Witness for C3: a concrete unhealthy state with a live TIMEOUT entry
recovers. -/
theorem recovery_clears_and_notifies_witness :
    ∃ st2 : MonFullState,
      runHealthCheck none none 0
        ({ mon :=
            { stats :=
               { totalChecks := 3, successfulChecks := 1, failedChecks := 2,
                 totalResponseTime := 500, errors := [], isHealthy := false },
              errorState :=
               [(ErrorType.TIMEOUT_ERROR,
                 { count := 2, firstOccurrence := 0, lastOccurrence := 60000,
                   lastNotification := some 0 })] },
           isPaused := false } : MonFullState)
        (.success 100) 1800000 120000
        = Except.ok (st2, [Notification.recovery])
      ∧ st2.mon.stats.isHealthy = true
      ∧ st2.mon.errorState = []
      ∧ (∀ k, lookupState st2.mon.errorState k = none) :=
  recovery_clears_and_notifies none none 0 _ 100 1800000 120000 rfl rfl rfl


/-! ### Helper lemmas: `sliceLast`, fold characterizations of the tracker -/

/-- `sliceLast` is the identity on lists within the bound. -/
theorem sliceLast_eq_self {α : Type} {n : Nat} {l : List α} (h : l.length ≤ n) :
    sliceLast n l = l := by
  simp [sliceLast, Nat.sub_eq_zero_of_le h]

theorem length_sliceLast {α : Type} (n : Nat) (l : List α) :
    (sliceLast n l).length = min n l.length := by
  simp [sliceLast]
  omega

/-- Capping after appending to an already-capped list caps the whole. -/
theorem sliceLast_append_left {α : Type} (n : Nat) (l r : List α) :
    sliceLast n (sliceLast n l ++ r) = sliceLast n (l ++ r) := by
  rcases le_or_lt l.length n with h | h
  · rw [sliceLast_eq_self h]
  · unfold sliceLast
    have hk : l.length - n ≤ l.length := Nat.sub_le _ _
    have h1 : l.drop (l.length - n) ++ r = (l ++ r).drop (l.length - n) :=
      (List.drop_append_of_le_length hk).symm
    rw [h1, List.drop_drop]
    congr 1
    simp [List.length_drop, List.length_append]
    omega

theorem sliceLast_sliceLast {α : Type} {a b : Nat} (hab : a ≤ b) (l : List α) :
    sliceLast a (sliceLast b l) = sliceLast a l := by
  unfold sliceLast
  rw [List.drop_drop]
  congr 1
  simp [List.length_drop]
  omega

/-- How one `recordResponseTime` call changes the current metrics. -/
theorem record_step (m : Metrics) (i : RecordInput) :
    (recordResponseTime m i.responseTime i.success i.hasPixCode i.now).current.count
        = m.current.count + 1
    ∧ (recordResponseTime m i.responseTime i.success i.hasPixCode i.now).current.totalTime
        = m.current.totalTime + i.responseTime
    ∧ (recordResponseTime m i.responseTime i.success i.hasPixCode i.now).current.minTime
        = jsMinInf m.current.minTime i.responseTime
    ∧ (recordResponseTime m i.responseTime i.success i.hasPixCode i.now).current.maxTime
        = Nat.max m.current.maxTime i.responseTime
    ∧ (recordResponseTime m i.responseTime i.success i.hasPixCode i.now).current.samples
        = sliceLast maxSamples (m.current.samples ++ [mkSample i]) := by
  refine ⟨rfl, rfl, rfl, rfl, ?_⟩
  show (if (m.current.samples ++ [mkSample i]).length > maxSamples
        then sliceLast maxSamples (m.current.samples ++ [mkSample i])
        else m.current.samples ++ [mkSample i])
      = sliceLast maxSamples (m.current.samples ++ [mkSample i])
  split
  · rfl
  · next hle => exact (sliceLast_eq_self (by omega)).symm

theorem recordAll_cons (m : Metrics) (i : RecordInput) (rest : List RecordInput) :
    recordAll m (i :: rest)
      = recordAll (recordResponseTime m i.responseTime i.success i.hasPixCode i.now)
          rest := rfl

theorem recordAll_count (m : Metrics) (inputs : List RecordInput) :
    (recordAll m inputs).current.count = m.current.count + inputs.length := by
  induction inputs generalizing m with
  | nil => simp [recordAll]
  | cons i rest ih =>
    rw [recordAll_cons, ih, (record_step m i).1]
    simp
    omega

theorem recordAll_totalTime (m : Metrics) (inputs : List RecordInput) :
    (recordAll m inputs).current.totalTime
      = m.current.totalTime + (inputs.map (fun i => i.responseTime)).sum := by
  induction inputs generalizing m with
  | nil => simp [recordAll]
  | cons i rest ih =>
    rw [recordAll_cons, ih, (record_step m i).2.1]
    simp
    omega

theorem recordAll_minTime (m : Metrics) (inputs : List RecordInput) :
    (recordAll m inputs).current.minTime
      = (inputs.map (fun i => i.responseTime)).foldl jsMinInf m.current.minTime := by
  induction inputs generalizing m with
  | nil => simp [recordAll]
  | cons i rest ih =>
    rw [recordAll_cons, ih, (record_step m i).2.2.1]
    simp

theorem recordAll_maxTime (m : Metrics) (inputs : List RecordInput) :
    (recordAll m inputs).current.maxTime
      = (inputs.map (fun i => i.responseTime)).foldl Nat.max m.current.maxTime := by
  induction inputs generalizing m with
  | nil => simp [recordAll]
  | cons i rest ih =>
    rw [recordAll_cons, ih, (record_step m i).2.2.2.1]
    simp

/-- The ring buffer after a sequence of records is the capped suffix of
everything ever appended. -/
theorem recordAll_samples (m : Metrics) (inputs : List RecordInput)
    (h : m.current.samples.length ≤ maxSamples) :
    (recordAll m inputs).current.samples
      = sliceLast maxSamples (m.current.samples ++ inputs.map mkSample) := by
  induction inputs generalizing m with
  | nil => simp [recordAll, sliceLast_eq_self h]
  | cons i rest ih =>
    rw [recordAll_cons, ih]
    · rw [(record_step m i).2.2.2.2, sliceLast_append_left]
      simp
    · rw [(record_step m i).2.2.2.2, length_sliceLast]
      omega

theorem foldl_min_spec (l : List Nat) (a : Nat) :
    (l.foldl Nat.min a ≤ a) ∧ (∀ x ∈ l, l.foldl Nat.min a ≤ x)
      ∧ (l.foldl Nat.min a = a ∨ l.foldl Nat.min a ∈ l) := by
  induction l generalizing a with
  | nil => simp
  | cons x xs ih =>
    simp only [List.foldl_cons]
    obtain ⟨ih1, ih2, ih3⟩ := ih (Nat.min a x)
    refine ⟨le_trans ih1 (Nat.min_le_left _ _), ?_, ?_⟩
    · intro y hy
      rcases List.mem_cons.mp hy with rfl | hy
      · exact le_trans ih1 (Nat.min_le_right _ _)
      · exact ih2 y hy
    · rcases ih3 with h | h
      · rcases Nat.le_total a x with hax | hax
        · left; rw [h]; exact Nat.min_eq_left hax
        · right
          rw [h, show a.min x = x from Nat.min_eq_right hax]
          exact List.mem_cons_self _ _
      · right; exact List.mem_cons_of_mem _ h

theorem foldl_max_spec (l : List Nat) (a : Nat) :
    (a ≤ l.foldl Nat.max a) ∧ (∀ x ∈ l, x ≤ l.foldl Nat.max a)
      ∧ (l.foldl Nat.max a = a ∨ l.foldl Nat.max a ∈ l) := by
  induction l generalizing a with
  | nil => simp
  | cons x xs ih =>
    simp only [List.foldl_cons]
    obtain ⟨ih1, ih2, ih3⟩ := ih (Nat.max a x)
    refine ⟨le_trans (Nat.le_max_left _ _) ih1, ?_, ?_⟩
    · intro y hy
      rcases List.mem_cons.mp hy with rfl | hy
      · exact le_trans (Nat.le_max_right _ _) ih1
      · exact ih2 y hy
    · rcases ih3 with h | h
      · rcases Nat.le_total x a with hax | hax
        · left; rw [h]; exact Nat.max_eq_left hax
        · right
          rw [h, show a.max x = x from Nat.max_eq_right hax]
          exact List.mem_cons_self _ _
      · right; exact List.mem_cons_of_mem _ h

theorem foldl_jsMinInf_some (l : List Nat) (a : Nat) :
    l.foldl jsMinInf (some a) = some (l.foldl Nat.min a) := by
  induction l generalizing a with
  | nil => rfl
  | cons x xs ih => simp [jsMinInf, ih]

/-- `Math.round(t/c)` as a floor over the rationals. -/
theorem jsRoundDiv_eq_floor (t c : Nat) (hc : 0 < c) :
    jsRoundDiv t c = ⌊(t : ℚ) / (c : ℚ) + 1/2⌋₊ := by
  have hc0 : ((c : ℚ)) ≠ 0 := Nat.cast_ne_zero.mpr hc.ne'
  have h1 : (t : ℚ) / (c : ℚ) + 1/2 = ((2*t + c : ℕ) : ℚ) / ((2*c : ℕ) : ℚ) := by
    push_cast
    field_simp
    ring
  rw [h1, Nat.floor_div_nat, Nat.floor_natCast]
  rfl

/-- `Math.round(t/c)` is exact on divisible inputs. -/
theorem jsRoundDiv_exact (t c q : Nat) (hc : 0 < c) (h : t = c * q) :
    jsRoundDiv t c = q := by
  subst h
  unfold jsRoundDiv
  rw [show 2*(c*q) + c = c * (2*q+1) by ring, show 2*c = c*2 by ring,
      Nat.mul_div_mul_left _ _ hc]
  omega

/-- C5 counterexample: after recording 100 ms and 101 ms,
`getCurrentStats().average` is 101 — `Math.round(totalTime/count)` — while
the exact arithmetic mean is 100.5, so the claim's "exact mean" fails. -/
theorem average_rounds_not_exact :
    (getCurrentStats (recordResponseTime
        (recordResponseTime emptyMetrics 100 true true 0) 101 true true 0)).average
      = 101
    ∧ ((101 : ℚ) ≠ (100 + 101) / 2) :=
  ⟨rfl, by norm_num⟩

/-- C5 (amended): for every record sequence, `count` equals the number of
calls; `average` is the arithmetic mean rounded to the nearest integer
(`⌊mean + 1/2⌋`, hence the exact mean whenever the sum is divisible by
the count, and 0 with no samples); `min`/`max` are the minimum/maximum
recorded values. -/
theorem currentStats_spec (inputs : List RecordInput) :
    (getCurrentStats (recordAll emptyMetrics inputs)).count = inputs.length
    ∧ (inputs = [] →
        getCurrentStats (recordAll emptyMetrics inputs)
          = { count := 0, average := 0, min := 0, max := 0, last10 := [] })
    ∧ (inputs ≠ [] →
        (getCurrentStats (recordAll emptyMetrics inputs)).average
            = jsRoundDiv (inputs.map (fun i => i.responseTime)).sum inputs.length
        ∧ (getCurrentStats (recordAll emptyMetrics inputs)).average
            = ⌊((((inputs.map (fun i => i.responseTime)).sum : ℕ) : ℚ)
                / (inputs.length : ℚ) + 1/2 : ℚ)⌋₊
        ∧ (inputs.length ∣ (inputs.map (fun i => i.responseTime)).sum →
            (((getCurrentStats (recordAll emptyMetrics inputs)).average : ℚ)
              = ((((inputs.map (fun i => i.responseTime)).sum : ℕ) : ℚ)
                  / (inputs.length : ℚ))))
        ∧ (getCurrentStats (recordAll emptyMetrics inputs)).min
            ∈ inputs.map (fun i => i.responseTime)
        ∧ (∀ x ∈ inputs.map (fun i => i.responseTime),
            (getCurrentStats (recordAll emptyMetrics inputs)).min ≤ x)
        ∧ (getCurrentStats (recordAll emptyMetrics inputs)).max
            ∈ inputs.map (fun i => i.responseTime)
        ∧ (∀ x ∈ inputs.map (fun i => i.responseTime),
            x ≤ (getCurrentStats (recordAll emptyMetrics inputs)).max)) := by
  cases inputs with
  | nil => exact ⟨rfl, fun _ => rfl, fun h => absurd rfl h⟩
  | cons i rest =>
    set M := recordAll emptyMetrics (i :: rest) with hM
    have hc : M.current.count = (i :: rest).length := by
      rw [hM, recordAll_count]; simp [emptyMetrics]
    have ht : M.current.totalTime = ((i :: rest).map (fun i => i.responseTime)).sum := by
      rw [hM, recordAll_totalTime]; simp [emptyMetrics]
    have hminT : M.current.minTime
        = some ((rest.map (fun i => i.responseTime)).foldl Nat.min i.responseTime) := by
      rw [hM, recordAll_minTime, List.map_cons, List.foldl_cons]
      exact foldl_jsMinInf_some _ _
    have hmaxT : M.current.maxTime
        = (rest.map (fun i => i.responseTime)).foldl Nat.max i.responseTime := by
      rw [hM, recordAll_maxTime, List.map_cons, List.foldl_cons]
      congr 1
      exact Nat.max_eq_right (Nat.zero_le _)
    have hne0 : (M.current.count == 0) = false := by
      rw [hc]; rfl
    have hcs : getCurrentStats M
        = { count := M.current.count,
            average := jsRoundDiv M.current.totalTime M.current.count,
            min := M.current.minTime.getD 0,
            max := M.current.maxTime,
            last10 := (sliceLast 10 M.current.samples).map
              (fun s => { time := s.time, responseTime := s.responseTime,
                          success := s.success }) } := by
      simp only [getCurrentStats]
      rw [hne0]
      rfl
    have hlen : ((i :: rest).length : ℚ) ≠ 0 :=
      Nat.cast_ne_zero.mpr (by simp)
    obtain ⟨hmin1, hmin2, hmin3⟩ := foldl_min_spec (rest.map (fun i => i.responseTime))
      i.responseTime
    obtain ⟨hmax1, hmax2, hmax3⟩ := foldl_max_spec (rest.map (fun i => i.responseTime))
      i.responseTime
    refine ⟨by rw [hcs, hc], fun h => absurd h (by simp), fun _ => ?_⟩
    refine ⟨?_, ?_, ?_, ?_, ?_, ?_, ?_⟩
    · rw [hcs]
      simp only
      rw [ht, hc]
    · rw [hcs]
      simp only
      rw [ht, hc, jsRoundDiv_eq_floor _ _ (by simp)]
    · intro hdvd
      obtain ⟨q, hq⟩ := hdvd
      rw [hcs]
      simp only
      rw [ht, hc, jsRoundDiv_exact _ _ q (by simp) hq, hq]
      rw [Nat.cast_mul, mul_comm, mul_div_assoc, div_self hlen, mul_one]
    · rw [hcs]
      simp only
      rw [hminT]
      simp only [Option.getD_some, List.map_cons]
      rcases hmin3 with h | h
      · rw [h]; exact List.mem_cons_self _ _
      · exact List.mem_cons_of_mem _ h
    · intro x hx
      rw [hcs]
      simp only
      rw [hminT]
      simp only [Option.getD_some]
      rcases List.mem_cons.mp (List.map_cons _ _ _ ▸ hx) with rfl | hx2
      · exact hmin1
      · exact hmin2 _ hx2
    · rw [hcs]
      simp only
      rw [hmaxT]
      rw [List.map_cons]
      rcases hmax3 with h | h
      · rw [h]; exact List.mem_cons_self _ _
      · exact List.mem_cons_of_mem _ h
    · intro x hx
      rw [hcs]
      simp only
      rw [hmaxT]
      rcases List.mem_cons.mp (List.map_cons _ _ _ ▸ hx) with rfl | hx2
      · exact hmax1
      · exact hmax2 _ hx2

/-- Witness for C5's amended theorem on the records 100 ms, 110 ms. -/
theorem currentStats_spec_witness :
    (getCurrentStats (recordAll emptyMetrics
        [⟨100, true, true, 0⟩, ⟨110, true, true, 0⟩])).count = 2
    ∧ (((getCurrentStats (recordAll emptyMetrics
        [⟨100, true, true, 0⟩, ⟨110, true, true, 0⟩])).average : ℚ)
        = (((([⟨100, true, true, 0⟩, ⟨110, true, true, 0⟩] : List RecordInput).map
            (fun i => i.responseTime)).sum : ℕ) : ℚ)
          / (([⟨100, true, true, 0⟩, ⟨110, true, true, 0⟩] : List RecordInput).length : ℚ)) :=
  ⟨(currentStats_spec [⟨100, true, true, 0⟩, ⟨110, true, true, 0⟩]).1,
   ((currentStats_spec [⟨100, true, true, 0⟩, ⟨110, true, true, 0⟩]).2.2
      (List.cons_ne_nil _ _)).2.2.1 ⟨105, rfl⟩⟩


/-- `getCurrentStats` on a state with at least one sample. -/
theorem getCurrentStats_pos (m : Metrics) (h : (m.current.count == 0) = false) :
    getCurrentStats m
      = { count := m.current.count,
          average := jsRoundDiv m.current.totalTime m.current.count,
          min := m.current.minTime.getD 0,
          max := m.current.maxTime,
          last10 := (sliceLast 10 m.current.samples).map
            (fun s => { time := s.time, responseTime := s.responseTime,
                        success := s.success }) } := by
  simp only [getCurrentStats]
  rw [h]
  rfl

/-- C7: the ring buffer never exceeds `maxSamples` (1000), the oldest
entries being evicted; once the capacity has been exceeded, `last10` is
exactly the 10 most recently recorded samples in order. -/
theorem ringBuffer_spec (inputs : List RecordInput) :
    (recordAll emptyMetrics inputs).current.samples.length ≤ maxSamples
    ∧ (inputs.length > maxSamples →
        (getCurrentStats (recordAll emptyMetrics inputs)).last10
          = (sliceLast 10 (inputs.map mkSample)).map
              (fun s => ({ time := s.time, responseTime := s.responseTime,
                           success := s.success } : Last10Entry))
        ∧ ((getCurrentStats (recordAll emptyMetrics inputs)).last10).length = 10) := by
  have hs : (recordAll emptyMetrics inputs).current.samples
      = sliceLast maxSamples (inputs.map mkSample) := by
    rw [recordAll_samples _ _ (by simp [emptyMetrics])]
    simp [emptyMetrics]
  constructor
  · rw [hs, length_sliceLast]
    exact min_le_left _ _
  · intro hgt
    have hc : (recordAll emptyMetrics inputs).current.count = inputs.length := by
      rw [recordAll_count]; simp [emptyMetrics]
    have hne0 : ((recordAll emptyMetrics inputs).current.count == 0) = false := by
      rw [hc]
      simp only [beq_eq_false_iff_ne]
      omega
    rw [getCurrentStats_pos _ hne0]
    simp only
    rw [hs, sliceLast_sliceLast (by norm_num [maxSamples] : (10:ℕ) ≤ maxSamples)]
    refine ⟨rfl, ?_⟩
    rw [List.length_map, length_sliceLast, List.length_map]
    simp only [maxSamples] at hgt
    omega

/-- Witness for C7 on 1001 recorded samples. -/
theorem ringBuffer_spec_witness :
    ((recordAll emptyMetrics
        ((List.range 1001).map (fun j => ⟨100 + j, true, true, j⟩))).current.samples.length
      ≤ maxSamples)
    ∧ (getCurrentStats (recordAll emptyMetrics
        ((List.range 1001).map (fun j => ⟨100 + j, true, true, j⟩)))).last10
        = (sliceLast 10
            (((List.range 1001).map (fun j => (⟨100 + j, true, true, j⟩ : RecordInput))).map
              mkSample)).map
            (fun s => ({ time := s.time, responseTime := s.responseTime,
                         success := s.success } : Last10Entry)) :=
  ⟨(ringBuffer_spec ((List.range 1001).map (fun j => ⟨100 + j, true, true, j⟩))).1,
   ((ringBuffer_spec ((List.range 1001).map (fun j => ⟨100 + j, true, true, j⟩))).2
      (by simp only [List.length_map, List.length_range, maxSamples]; omega)).1⟩



/-- Ceiling of a rational quotient of naturals as natural division. -/
theorem ceil_natCast_div (a b : Nat) (hb : 0 < b) :
    ⌈(a : ℚ) / (b : ℚ)⌉ = (((a + b - 1) / b : ℕ) : ℤ) := by
  rcases Nat.eq_zero_or_pos a with ha | ha
  · subst ha
    rw [Nat.div_eq_of_lt (by omega)]
    simp
  · have hdm : b * ((a + b - 1) / b) + (a + b - 1) % b = a + b - 1 :=
      Nat.div_add_mod _ _
    have hmod : (a + b - 1) % b < b := Nat.mod_lt _ hb
    set q : ℕ := (a + b - 1) / b with hqdef
    have h1 : a ≤ b * q := by omega
    have h2 : b * q < a + b := by omega
    rw [Int.ceil_eq_iff]
    constructor
    · rw [lt_div_iff₀ (by positivity)]
      have h2q : ((b * q : ℕ) : ℚ) < ((a + b : ℕ) : ℚ) := by
        exact_mod_cast h2
      push_cast at h2q ⊢
      ring_nf
      ring_nf at h2q
      linarith
    · rw [div_le_iff₀ (by positivity)]
      have h1q : ((a : ℕ) : ℚ) ≤ ((b * q : ℕ) : ℚ) := by
        exact_mod_cast h1
      push_cast at h1q ⊢
      ring_nf
      ring_nf at h1q
      linarith

/-- The percentile index `(p*n+99)/100 - 1` stays below `n` for `p ≤ 100`. -/
theorem percentile_index_lt (l : List Nat) (p : Nat) (hne : l ≠ [])
    (hp : p ≤ 100) : (p * l.length + 99) / 100 - 1 < l.length := by
  have hlen : 0 < l.length := List.length_pos.mpr hne
  have hmul : p * l.length ≤ 100 * l.length := Nat.mul_le_mul_right _ hp
  have hd : (p * l.length + 99) / 100 ≤ (100 * l.length + 99) / 100 :=
    Nat.div_le_div_right (by omega)
  have h100 : (100 * l.length + 99) / 100 = l.length := by
    rw [Nat.mul_add_div (by norm_num)]
    rfl
  omega

/-- Nearest-rank percentile is monotone in `p` on a sorted list. -/
theorem calculatePercentile_mono (l : List Nat) (p q : Nat)
    (hs : l.Sorted (· ≤ ·)) (hpq : p ≤ q) (hq : q ≤ 100) :
    calculatePercentile l p ≤ calculatePercentile l q := by
  rcases eq_or_ne l [] with rfl | hne
  · simp [calculatePercentile]
  · have hip := percentile_index_lt l p hne (le_trans hpq hq)
    have hiq := percentile_index_lt l q hne hq
    have hidx : (p * l.length + 99) / 100 - 1 ≤ (q * l.length + 99) / 100 - 1 := by
      have : (p * l.length + 99) / 100 ≤ (q * l.length + 99) / 100 :=
        Nat.div_le_div_right (by have := Nat.mul_le_mul_right l.length hpq; omega)
      omega
    have hemp : l.isEmpty = false := by
      cases l
      · exact absurd rfl hne
      · rfl
    unfold calculatePercentile
    rw [hemp]
    simp only [Bool.false_eq_true, if_false]
    rw [List.getD_eq_getElem _ _ hip, List.getD_eq_getElem _ _ hiq]
    have hrel := hs.rel_get_of_le
      (a := ⟨(p * l.length + 99) / 100 - 1, hip⟩)
      (b := ⟨(q * l.length + 99) / 100 - 1, hiq⟩)
      (by simpa using hidx)
    simpa using hrel


/-- C6: the percentile of a sorted list is the element at index
`ceil(p/100*n) - 1` clamped to `[0, n-1]` (0 for an empty list); the
analysis computes p50/p95/p99 over the full sorted current ring buffer;
the function is monotone in `p` on sorted input, so `p50 ≤ p95 ≤ p99`;
on `[100, 200, 300, 400, 500]` the values are 300, 500, 500. -/
theorem percentile_spec :
    (∀ p : Nat, calculatePercentile [] p = 0)
    ∧ (∀ (l : List Nat) (p : Nat), l ≠ [] → p ≤ 100 →
        ((p * l.length + 99) / 100 - 1 < l.length)
        ∧ ((((p * l.length + 99) / 100 - 1 : ℕ) : ℤ)
            = max 0 (⌈(p : ℚ) / 100 * (l.length : ℚ)⌉ - 1))
        ∧ calculatePercentile l p = l.getD ((p * l.length + 99) / 100 - 1) 0)
    ∧ (∀ (m : Metrics) (nowHour : Nat),
        (getPerformanceAnalysis m nowHour).p50 = calculatePercentile (sortedRTs m) 50
        ∧ (getPerformanceAnalysis m nowHour).p95 = calculatePercentile (sortedRTs m) 95
        ∧ (getPerformanceAnalysis m nowHour).p99 = calculatePercentile (sortedRTs m) 99)
    ∧ (∀ (l : List Nat) (p q : Nat), l.Sorted (· ≤ ·) → p ≤ q → q ≤ 100 →
        calculatePercentile l p ≤ calculatePercentile l q)
    ∧ (∀ (m : Metrics) (nowHour : Nat),
        (getPerformanceAnalysis m nowHour).p50 ≤ (getPerformanceAnalysis m nowHour).p95
        ∧ (getPerformanceAnalysis m nowHour).p95 ≤ (getPerformanceAnalysis m nowHour).p99)
    ∧ (calculatePercentile [100, 200, 300, 400, 500] 50 = 300
       ∧ calculatePercentile [100, 200, 300, 400, 500] 95 = 500
       ∧ calculatePercentile [100, 200, 300, 400, 500] 99 = 500) := by
  refine ⟨fun p => rfl, ?_, fun m nowHour => ⟨rfl, rfl, rfl⟩,
    calculatePercentile_mono, ?_, by decide⟩
  · intro l p hne hp
    have hemp : l.isEmpty = false := by
      cases l
      · exact absurd rfl hne
      · rfl
    refine ⟨percentile_index_lt l p hne hp, ?_, ?_⟩
    · have hc := ceil_natCast_div (p * l.length) 100 (by norm_num)
      rw [show (p : ℚ) / 100 * (l.length : ℚ)
            = ((p * l.length : ℕ) : ℚ) / ((100 : ℕ) : ℚ) by push_cast; ring, hc]
      omega
    · unfold calculatePercentile
      rw [hemp]
      rfl
  · intro m nowHour
    have hs : (sortedRTs m).Sorted (· ≤ ·) := by
      unfold sortedRTs
      exact List.sorted_mergeSort' _
    exact ⟨calculatePercentile_mono _ 50 95 hs (by norm_num) (by norm_num),
           calculatePercentile_mono _ 95 99 hs (by norm_num) (by norm_num)⟩

/-- Witness for C6 on the five-element sample list. -/
theorem percentile_spec_witness :
    ((50 * ([100, 200, 300, 400, 500] : List ℕ).length + 99) / 100 - 1
        < ([100, 200, 300, 400, 500] : List ℕ).length)
    ∧ calculatePercentile [100, 200, 300, 400, 500] 50
        = ([100, 200, 300, 400, 500] : List ℕ).getD
            ((50 * ([100, 200, 300, 400, 500] : List ℕ).length + 99) / 100 - 1) 0
    ∧ calculatePercentile [100, 200, 300, 400, 500] 50
        ≤ calculatePercentile [100, 200, 300, 400, 500] 95 :=
  ⟨(percentile_spec.2.1 [100, 200, 300, 400, 500] 50 (by simp) (by norm_num)).1,
   (percentile_spec.2.1 [100, 200, 300, 400, 500] 50 (by simp) (by norm_num)).2.2,
   percentile_spec.2.2.2.1 [100, 200, 300, 400, 500] 50 95 (by decide)
     (by norm_num) (by norm_num)⟩


/-- The contribution of the bucket at hour key `k` to a recent-average
fold: its total time when it has samples, else nothing. -/
def bucketTT (m : Metrics) (k : Nat) : Nat :=
  match alookup m.hourly k with
  | some hd => if hd.count > 0 then hd.totalTime else 0
  | none => 0

/-- The count contribution of the bucket at hour key `k`. -/
def bucketCnt (m : Metrics) (k : Nat) : Nat :=
  match alookup m.hourly k with
  | some hd => if hd.count > 0 then hd.count else 0
  | none => 0

/-- The accumulator loop of `calculateRecentAverage` computes the bucket
sums. -/
theorem recentAcc_spec (m : Metrics) (nowHour : Nat) (is : List Nat)
    (acc : Nat × Nat) :
    is.foldl
      (fun (acc : Nat × Nat) i =>
        match alookup m.hourly (nowHour - i) with
        | some hd =>
          if hd.count > 0 then (acc.1 + hd.totalTime, acc.2 + hd.count) else acc
        | none => acc)
      acc
    = (acc.1 + (is.map (fun i => bucketTT m (nowHour - i))).sum,
       acc.2 + (is.map (fun i => bucketCnt m (nowHour - i))).sum) := by
  induction is generalizing acc with
  | nil => simp
  | cons i rest ih =>
    simp only [List.foldl_cons, List.map_cons, List.sum_cons]
    rw [ih]
    unfold bucketTT bucketCnt
    cases hl : alookup m.hourly (nowHour - i) with
    | none => simp
    | some hd =>
      by_cases hcnt : hd.count > 0
      · simp only [hcnt, if_true, Prod.mk.injEq]
        constructor <;> ring
      · simp [hcnt]

/-- `calculateRecentAverage` is the sample-weighted mean of the bucket
sums over its window. -/
theorem calcRA_eq_sum (m : Metrics) (hours offset nowHour : Nat) :
    calculateRecentAverage m hours offset nowHour
      = (if 0 < (((List.range hours).map (· + offset)).map
              (fun i => bucketCnt m (nowHour - i))).sum
         then ((((List.range hours).map (· + offset)).map
                (fun i => bucketTT m (nowHour - i))).sum : ℚ)
              / ((((List.range hours).map (· + offset)).map
                (fun i => bucketCnt m (nowHour - i))).sum : ℚ)
         else 0) := by
  unfold calculateRecentAverage
  rw [recentAcc_spec]
  simp

/-- `calculateRecentAverage` reads only the buckets of its window. -/
theorem calcRA_ext (m m2 : Metrics) (hours offset nowHour : Nat)
    (h : ∀ i ∈ (List.range hours).map (· + offset),
        alookup m.hourly (nowHour - i) = alookup m2.hourly (nowHour - i)) :
    calculateRecentAverage m hours offset nowHour
      = calculateRecentAverage m2 hours offset nowHour := by
  rw [calcRA_eq_sum, calcRA_eq_sum]
  have hTT : ((List.range hours).map (· + offset)).map
        (fun i => bucketTT m (nowHour - i))
      = ((List.range hours).map (· + offset)).map
        (fun i => bucketTT m2 (nowHour - i)) := by
    refine List.map_congr_left ?_
    intro i hi
    unfold bucketTT
    rw [h i hi]
  have hCC : ((List.range hours).map (· + offset)).map
        (fun i => bucketCnt m (nowHour - i))
      = ((List.range hours).map (· + offset)).map
        (fun i => bucketCnt m2 (nowHour - i)) := by
    refine List.map_congr_left ?_
    intro i hi
    unfold bucketCnt
    rw [h i hi]
  rw [hTT, hCC]


/-- C8 (amended): the analysis compares `recentAvg`, the sample-weighted
mean of the 6 most recent hourly buckets (offsets 0-5), against
`olderAvg`, the mean over the 24 buckets starting 6 hours ago — that is,
hours 6 to 29 ago, not 6 to 24; trend is degrading when the relative
change exceeds +10%, improving below -10%, else stable, and a window
with no samples yields trend percent 0 and "stable". -/
theorem trend_analysis_spec (m : Metrics) (nowHour : Nat) (hnow : 29 ≤ nowHour) :
    ((getPerformanceAnalysis m nowHour).trend
      = (if calculateRecentAverage m 6 0 nowHour > 0
            ∧ calculateRecentAverage m 24 6 nowHour > 0 then
          (if (calculateRecentAverage m 6 0 nowHour
                - calculateRecentAverage m 24 6 nowHour)
              / calculateRecentAverage m 24 6 nowHour * 100 > 10 then Trend.degrading
           else if (calculateRecentAverage m 6 0 nowHour
                - calculateRecentAverage m 24 6 nowHour)
              / calculateRecentAverage m 24 6 nowHour * 100 < -10 then Trend.improving
           else Trend.stable)
         else Trend.stable))
    ∧ ((getPerformanceAnalysis m nowHour).trendPercent
      = (if calculateRecentAverage m 6 0 nowHour > 0
            ∧ calculateRecentAverage m 24 6 nowHour > 0 then
          |(calculateRecentAverage m 6 0 nowHour
              - calculateRecentAverage m 24 6 nowHour)
            / calculateRecentAverage m 24 6 nowHour * 100|
         else 0))
    ∧ (calculateRecentAverage m 6 0 nowHour = 0
        ∨ calculateRecentAverage m 24 6 nowHour = 0 →
        (getPerformanceAnalysis m nowHour).trend = Trend.stable
        ∧ (getPerformanceAnalysis m nowHour).trendPercent = 0)
    ∧ (calculateRecentAverage m 6 0 nowHour
        = (if 0 < (((List.range 6).map (· + 0)).map
              (fun i => bucketCnt m (nowHour - i))).sum
           then ((((List.range 6).map (· + 0)).map
                  (fun i => bucketTT m (nowHour - i))).sum : ℚ)
                / ((((List.range 6).map (· + 0)).map
                  (fun i => bucketCnt m (nowHour - i))).sum : ℚ)
           else 0))
    ∧ (calculateRecentAverage m 24 6 nowHour
        = (if 0 < (((List.range 24).map (· + 6)).map
              (fun i => bucketCnt m (nowHour - i))).sum
           then ((((List.range 24).map (· + 6)).map
                  (fun i => bucketTT m (nowHour - i))).sum : ℚ)
                / ((((List.range 24).map (· + 6)).map
                  (fun i => bucketCnt m (nowHour - i))).sum : ℚ)
           else 0))
    ∧ (∀ m2 : Metrics,
        (∀ k : Nat, nowHour - 29 ≤ k → k ≤ nowHour - 6 →
          alookup m.hourly k = alookup m2.hourly k) →
        calculateRecentAverage m 24 6 nowHour
          = calculateRecentAverage m2 24 6 nowHour)
    ∧ (∀ m2 : Metrics,
        (∀ k : Nat, nowHour - 5 ≤ k → k ≤ nowHour →
          alookup m.hourly k = alookup m2.hourly k) →
        calculateRecentAverage m 6 0 nowHour
          = calculateRecentAverage m2 6 0 nowHour) := by
  refine ⟨?_, ?_, ?_, calcRA_eq_sum m 6 0 nowHour, calcRA_eq_sum m 24 6 nowHour,
    ?_, ?_⟩
  · by_cases hg : calculateRecentAverage m 6 0 nowHour > 0
        ∧ calculateRecentAverage m 24 6 nowHour > 0
    · simp [getPerformanceAnalysis, hg]
    · simp [getPerformanceAnalysis, hg]
  · by_cases hg : calculateRecentAverage m 6 0 nowHour > 0
        ∧ calculateRecentAverage m 24 6 nowHour > 0
    · simp [getPerformanceAnalysis, hg]
    · simp [getPerformanceAnalysis, hg]
  · intro h0
    have hg : ¬(calculateRecentAverage m 6 0 nowHour > 0
        ∧ calculateRecentAverage m 24 6 nowHour > 0) := by
      rcases h0 with h0 | h0 <;> rw [h0] <;> simp
    constructor <;> simp [getPerformanceAnalysis, hg]
  · intro m2 hk
    refine calcRA_ext m m2 24 6 nowHour ?_
    intro i hi
    simp only [List.mem_map, List.mem_range] at hi
    obtain ⟨j, hj, rfl⟩ := hi
    exact hk _ (by omega) (by omega)
  · intro m2 hk
    refine calcRA_ext m m2 6 0 nowHour ?_
    intro i hi
    simp only [List.mem_map, List.mem_range] at hi
    obtain ⟨j, hj, rfl⟩ := hi
    exact hk _ (by omega) (by omega)


/-- An hourly bucket holding a single sample of `t` ms. -/
def hbEx (t : Nat) : HourBucket :=
  { count := 1, totalTime := t, minTime := some t, maxTime := t, failures := 0 }

/-- Metrics with one 500 ms sample in the current hour (key 100) and one
1000 ms sample 25 hours ago (key 75). -/
def mEx : Metrics :=
  { emptyMetrics with hourly := [(75, hbEx 1000), (100, hbEx 500)] }


/-- C8 counterexample: with one bucket 25 hours ago (1000 ms) and one in
the current hour (500 ms), every bucket of the claim's older window
(hours 6-24 ago) is empty — the claim then demands trend "stable" with
percent 0 — yet the code reports "improving" with 50%, because
`calculateRecentAverage(24, 6)` reaches 29 hours back and sees the
1000 ms bucket. -/
theorem trend_claim_window_false :
    (getPerformanceAnalysis mEx 100).trend = Trend.improving
    ∧ (getPerformanceAnalysis mEx 100).trendPercent = 50
    ∧ calculateRecentAverage mEx 18 6 100 = 0
    ∧ calculateRecentAverage mEx 19 6 100 = 0 := by
  have hr : calculateRecentAverage mEx 6 0 100 = 500 := by
    simp only [calculateRecentAverage,
      show List.range 6 = [0, 1, 2, 3, 4, 5] from rfl]
    norm_num [alookup, mEx, hbEx, emptyMetrics]
  have ho : calculateRecentAverage mEx 24 6 100 = 1000 := by
    simp only [calculateRecentAverage,
      show List.range 24
        = [0, 1, 2, 3, 4, 5, 6, 7, 8, 9, 10, 11, 12, 13, 14, 15, 16, 17, 18,
           19, 20, 21, 22, 23] from rfl]
    norm_num [alookup, mEx, hbEx, emptyMetrics]
  refine ⟨?_, ?_, by rfl, by rfl⟩
  · simp only [getPerformanceAnalysis, hr, ho]
    norm_num
  · simp only [getPerformanceAnalysis, hr, ho]
    norm_num


/-- Witness for C8's amended theorem: with no samples at all both windows
are empty, so the trend is stable with percent 0. -/
theorem trend_analysis_spec_witness :
    (getPerformanceAnalysis emptyMetrics 100).trend = Trend.stable
    ∧ (getPerformanceAnalysis emptyMetrics 100).trendPercent = 0 :=
  (trend_analysis_spec emptyMetrics 100 (by norm_num)).2.2.1 (Or.inl rfl)

end MonitorFor4
